import Mathlib

/-!
Review screen of the library client (ReactNativeClient/src/screens/books/ReviewScreen.js).

A shallow embedding of the form validation and of the handlers of `ReviewScreen`
(save, delete, loading of the other reviews), with the document store, the clock and
the toast/navigation callbacks made explicit; then of `getFirebaseConfig`
(constants/firebase.js) and of `handleLogin` (screens/auth/LoginScreen.js).

* A JavaScript string is the list of its UTF-16 code units, so `length` is `List.length`.
* The store (`firestoreService`) is an external collaborator: its replies are parameters.
* `new Date().toISOString()` is a reading of a clock; the k-th reading of a call is `clock k`.
* What a handler does is the list of its effects, in program order.
-/

namespace ReviewScreen

/-! ## JavaScript values -/

/-- A JavaScript string, as the sequence of its UTF-16 code units. -/
abbrev JSString := List Nat

/-- The code units that `String.prototype.trim` strips: ECMAScript WhiteSpace
(TAB, VT, FF, SP, NBSP, ZWNBSP and the Unicode space separators) and LineTerminator
(LF, CR, LS, PS). All of them lie in the basic plane, so they are single code units. -/
def isTrimChar (c : Nat) : Bool :=
  c == 0x0009 || c == 0x000A || c == 0x000B || c == 0x000C || c == 0x000D ||
  c == 0x0020 || c == 0x00A0 || c == 0x1680 || (0x2000 ≤ c && c ≤ 0x200A) ||
  c == 0x2028 || c == 0x2029 || c == 0x202F || c == 0x205F || c == 0x3000 || c == 0xFEFF

/-- The result of `s.trim()`: leading and trailing white space removed. -/
def trim (s : JSString) : JSString :=
  (s.dropWhile isTrimChar).rdropWhile isTrimChar

/-- Truthiness of a possibly absent string: `undefined` and `''` are falsy. -/
def truthyStr : Option JSString → Option JSString
  | some (c :: cs) => some (c :: cs)
  | _ => none

/-- The expression `a || b` for a possibly absent string `a` and a string `b`. -/
def orStr (a : Option JSString) (b : JSString) : JSString :=
  match truthyStr a with
  | some s => s
  | none => b

/-- The expression `a || 0` for a possibly absent number `a` (`undefined` and `0` are falsy). -/
def orZero : Option Int → Int
  | some n => n
  | none => 0

/-- The expression `a || false` for a possibly absent boolean `a`. -/
def orFalse : Option Bool → Bool
  | some b => b
  | none => false

/-! ## Route parameters, identity and screen state -/

/-- The `book` route parameter (the fields the screen reads). -/
structure Book where
  bookId : JSString
  titulo : JSString
  autor : JSString
  portadaUrl : JSString
  deriving DecidableEq, Repr

/-- The `existingReview` route parameter: a stored review document. Every field
but the document id may be missing from the document. -/
structure ExistingReview where
  id : JSString
  bookId : JSString
  userId : JSString
  calificacion : Option Int
  texto : Option JSString
  esPrivada : Option Bool
  fechaCreacion : Option JSString
  deriving DecidableEq, Repr

/-- The signed-in user given by `useAuth()`. -/
structure User where
  uid : JSString
  displayName : Option JSString
  email : JSString
  deriving DecidableEq, Repr

/-- The `userProfile` given by `useAuth()`. -/
structure UserProfile where
  nombre : Option JSString
  deriving DecidableEq, Repr

/-- The local state of the form (`useState` cells read by the handlers). -/
structure FormState where
  rating : Int
  reviewText : JSString
  isPrivate : Bool
  saving : Bool
  showPreview : Bool
  showDeleteDialog : Bool
  deriving DecidableEq, Repr

/-- The initial values of the `useState` cells (lines 56-62). -/
def initialState (existingReview : Option ExistingReview) : FormState where
  rating := orZero (existingReview.bind fun e => e.calificacion)
  reviewText := orStr (existingReview.bind fun e => e.texto) []
  isPrivate := orFalse (existingReview.bind fun e => e.esPrivada)
  saving := false
  showPreview := false
  showDeleteDialog := false

/-- What the handlers of one render close over. `book` and `user` are objects:
the component body evaluates `[book.bookId, user.uid]` (the dependency list of
`loadOtherReviews`, line 336) before it creates the handlers. -/
structure Closure where
  book : Book
  existingReview : Option ExistingReview
  user : User
  userProfile : Option UserProfile
  state : FormState
  deriving DecidableEq, Repr

/-- The constant `isEditing = !!existingReview` (line 66). -/
def isEditing (c : Closure) : Bool := c.existingReview.isSome

/-- The constant `maxCharacters` (line 67). -/
def maxCharacters : Nat := 1000

/-! ## The store and the effects of a handler -/

/-- The object literal `reviewData` built by `handleSaveReview` (lines 370-387). -/
structure ReviewData where
  bookId : JSString
  userId : JSString
  calificacion : Int
  texto : JSString
  esPrivada : Bool
  fechaCreacion : JSString
  fechaActualizacion : JSString
  bookTitle : JSString
  bookAuthor : JSString
  bookCover : JSString
  userName : JSString
  userEmail : JSString
  deriving DecidableEq, Repr

/-- The object literal passed to `updateBookInLibrary` (lines 398-401). -/
structure LibraryUpdate where
  calificacionUsuario : Int
  fechaCalificacion : JSString
  deriving DecidableEq, Repr

/-- A call of a method of `firestoreService`, with its arguments. -/
inductive StoreCall where
  | createReview (data : ReviewData)
  | updateReview (id : JSString) (data : ReviewData)
  | deleteReview (id : JSString)
  | updateBookInLibrary (uid : JSString) (bookId : JSString) (update : LibraryUpdate)
  deriving DecidableEq, Repr

/-- What an awaited store call gives: a result with `success` truthy, a result
with `success` falsy (and its `error`), or a rejected promise. -/
inductive Reply where
  | ok
  | failed (error : JSString)
  | threw
  deriving DecidableEq, Repr

/-- The store, as the reply it gives to each call. -/
abbrev Store := StoreCall → Reply

/-- One observable effect of a handler. A store call is recorded with its reply. -/
inductive Effect where
  | showError (message : String)
  | showSuccess (message : String)
  | setSaving (value : Bool)
  | setShowDeleteDialog (value : Bool)
  | goBack
  | store (call : StoreCall) (reply : Reply)
  deriving DecidableEq, Repr

/-! ## validateForm (lines 344-361) -/

/-- The toast of the first check. -/
def msgNoRating : String := "Debes seleccionar una calificación"

/-- The toast of the second check. -/
def msgTooShort : String := "La reseña debe tener al menos 10 caracteres"

/-- The toast of the third check (a template literal over `maxCharacters`). -/
def msgTooLong : String :=
  "La reseña no puede exceder " ++ toString maxCharacters ++ " caracteres"

/-- The function `validateForm`: the boolean it returns and the toasts it shows. -/
def validateForm (s : FormState) : Bool × List Effect :=
  if s.rating = 0 then
    (false, [Effect.showError msgNoRating])
  else if (trim s.reviewText).length < 10 then
    (false, [Effect.showError msgTooShort])
  else if s.reviewText.length > maxCharacters then
    (false, [Effect.showError msgTooLong])
  else
    (true, [])

/-! ## handleSaveReview (lines 364-416) -/

/-- The string literal `'Usuario'`. -/
def usuario : JSString := [85, 115, 117, 97, 114, 105, 111]

/-- The field `fechaCreacion: existingReview?.fechaCreacion || new Date().toISOString()`
(line 376), with the number of clock readings it took. -/
def fechaCreacionOf (c : Closure) (clock : Nat → JSString) : JSString × Nat :=
  match truthyStr (c.existingReview.bind fun e => e.fechaCreacion) with
  | some t => (t, 0)
  | none => (clock 0, 1)

/-- The object `reviewData` (lines 370-387). -/
def reviewData (c : Closure) (clock : Nat → JSString) : ReviewData where
  bookId := c.book.bookId
  userId := c.user.uid
  calificacion := c.state.rating
  texto := trim c.state.reviewText
  esPrivada := c.state.isPrivate
  fechaCreacion := (fechaCreacionOf c clock).1
  fechaActualizacion := clock (fechaCreacionOf c clock).2
  bookTitle := c.book.titulo
  bookAuthor := c.book.autor
  bookCover := c.book.portadaUrl
  userName := orStr (c.userProfile.bind fun p => p.nombre) (orStr c.user.displayName usuario)
  userEmail := c.user.email

/-- The review write of lines 389-394: `updateReview(existingReview.id, reviewData)`
when `isEditing`, `createReview(reviewData)` otherwise. -/
def reviewWrite (c : Closure) (data : ReviewData) : StoreCall :=
  match c.existingReview with
  | some e => StoreCall.updateReview e.id data
  | none => StoreCall.createReview data

/-- The library update of lines 398-401; its date is the clock reading that follows
those of `reviewData`. -/
def libraryWrite (c : Closure) (clock : Nat → JSString) : StoreCall :=
  StoreCall.updateBookInLibrary c.user.uid c.book.bookId
    { calificacionUsuario := c.state.rating
      fechaCalificacion := clock ((fechaCreacionOf c clock).2 + 1) }

/-- The toast of the `catch` block of `handleSaveReview`. -/
def msgSaveFailed : String := "Error guardando reseña"

/-- The success toast of `handleSaveReview`. -/
def msgSaved (c : Closure) : String :=
  if isEditing c then "Reseña actualizada" else "Reseña publicada"

/-- The `try` and `catch` blocks of `handleSaveReview` after `setSaving(true)`
(lines 370-409). The result of `updateBookInLibrary` is awaited and discarded. -/
def saveBody (c : Closure) (store : Store) (clock : Nat → JSString) : List Effect :=
  let w := reviewWrite c (reviewData c clock)
  match store w with
  | Reply.ok =>
    let u := libraryWrite c clock
    match store u with
    | Reply.threw =>
      [Effect.store w Reply.ok, Effect.store u Reply.threw, Effect.showError msgSaveFailed]
    | r =>
      [Effect.store w Reply.ok, Effect.store u r, Effect.showSuccess (msgSaved c), Effect.goBack]
  | r => [Effect.store w r, Effect.showError msgSaveFailed]

/-- The handler `handleSaveReview`: its effects, in order. -/
def handleSaveReview (c : Closure) (store : Store) (clock : Nat → JSString) : List Effect :=
  let v := validateForm c.state
  if v.1 then
    v.2 ++ [Effect.setSaving true] ++ saveBody c store clock ++ [Effect.setSaving false]
  else
    v.2

/-! ## Reading a list of effects -/

/-- The store calls of a list of effects, in order. -/
def storeCalls (t : List Effect) : List StoreCall :=
  t.filterMap fun e =>
    match e with
    | Effect.store call _ => some call
    | _ => none

/-- Whether a store call is a review write (`createReview` or `updateReview`). -/
def isReviewWrite : StoreCall → Bool
  | StoreCall.createReview _ => true
  | StoreCall.updateReview _ _ => true
  | _ => false

/-- Whether a store call is `updateBookInLibrary`. -/
def isLibraryWrite : StoreCall → Bool
  | StoreCall.updateBookInLibrary _ _ _ => true
  | _ => false

/-- Whether a store call is `deleteReview`. -/
def isDelete : StoreCall → Bool
  | StoreCall.deleteReview _ => true
  | _ => false

/-- The records handed to `createReview` or `updateReview`, in order. -/
def recordsWritten (t : List Effect) : List ReviewData :=
  (storeCalls t).filterMap fun call =>
    match call with
    | StoreCall.createReview d => some d
    | StoreCall.updateReview _ d => some d
    | _ => none

/-- What a handler reports to the user: its toasts and the navigation back. -/
def reported (t : List Effect) : List Effect :=
  t.filter fun e =>
    match e with
    | Effect.showError _ => true
    | Effect.showSuccess _ => true
    | Effect.goBack => true
    | _ => false

/-! ## Concrete inputs -/

/-- The text `"short"`. -/
def textShort : JSString := [115, 104, 111, 114, 116]

/-- The text `"Great book"` (ten code units). -/
def textGreatBook : JSString := [71, 114, 101, 97, 116, 32, 98, 111, 111, 107]

/-- A text of a thousand letters `a` followed by one space. -/
def textPadded : JSString := List.replicate 1000 97 ++ [32]

/-- A fresh form holding the given rating and text. -/
def formOf (rating : Int) (text : JSString) : FormState where
  rating := rating
  reviewText := text
  isPrivate := false
  saving := false
  showPreview := false
  showDeleteDialog := false

/-- The k-th clock reading of the examples: the one-digit string of `k`. -/
def tick (k : Nat) : JSString := [48 + k]

/-- A book of the examples. -/
def bookB : Book where
  bookId := [66]
  titulo := [84]
  autor := [65]
  portadaUrl := []

/-- A signed-in user of the examples. -/
def userU : User where
  uid := [85]
  displayName := none
  email := [117, 64, 120]

/-- A new-review screen holding a rating of 5 and the text "Great book". -/
def newReviewScreen : Closure where
  book := bookB
  existingReview := none
  user := userU
  userProfile := none
  state := formOf 5 textGreatBook

/-- A stored review of book `B` by user `U` that has no `fechaCreacion` field. -/
def reviewNoDate : ExistingReview where
  id := [82]
  bookId := [66]
  userId := [85]
  calificacion := some 4
  texto := some textGreatBook
  esPrivada := some false
  fechaCreacion := none

/-- The same stored review with an empty `fechaCreacion`. -/
def reviewEmptyDate : ExistingReview :=
  { reviewNoDate with fechaCreacion := some [] }

/-- The same stored review with the `fechaCreacion` "9". -/
def reviewDated : ExistingReview :=
  { reviewNoDate with fechaCreacion := some [57] }

/-- A stored review of another book (`C`) by another user (`V`). -/
def reviewElsewhere : ExistingReview :=
  { reviewDated with bookId := [67], userId := [86] }

/-- The screen opened on book `B` by user `U` to edit the given stored review. -/
def editScreen (e : ExistingReview) : Closure where
  book := bookB
  existingReview := some e
  user := userU
  userProfile := none
  state := initialState (some e)

/-- A store that answers every call with success. -/
def storeAllOk : Store := fun _ => Reply.ok

/-- A store whose review writes fail and whose other calls succeed. -/
def storeWriteFails : Store := fun call =>
  if isReviewWrite call then Reply.failed [] else Reply.ok

/-- A store whose `updateBookInLibrary` returns a failure result and whose other
calls succeed. -/
def storeLibraryFails : Store := fun call =>
  if isLibraryWrite call then Reply.failed [] else Reply.ok

/-- A store whose `updateBookInLibrary` throws and whose other calls succeed. -/
def storeLibraryThrows : Store := fun call =>
  if isLibraryWrite call then Reply.threw else Reply.ok

/-! ## handleDeleteReview (lines 419-437) -/

/-- The toast of the `catch` block of `handleDeleteReview`. -/
def msgDeleteFailed : String := "Error eliminando reseña"

/-- The success toast of `handleDeleteReview`. -/
def msgDeleted : String := "Reseña eliminada"

/-- The handler `handleDeleteReview`: its effects, in order. It reads `existingReview`
and nothing else of the render; with no existing review, `existingReview.id` throws
inside the `try` block and the `catch` block shows the error toast. -/
def handleDeleteReview (existingReview : Option ExistingReview) (store : Store) :
    List Effect :=
  [Effect.setSaving true, Effect.setShowDeleteDialog false] ++
  (match existingReview with
    | none => [Effect.showError msgDeleteFailed]
    | some e =>
      match store (StoreCall.deleteReview e.id) with
      | Reply.ok =>
        [Effect.store (StoreCall.deleteReview e.id) Reply.ok,
          Effect.showSuccess msgDeleted, Effect.goBack]
      | r => [Effect.store (StoreCall.deleteReview e.id) r, Effect.showError msgDeleteFailed]) ++
  [Effect.setSaving false]

/-! ## loadOtherReviews (lines 319-336) -/

/-- What the awaited `firestoreService.getBookReviews` gives: a result with `success`
truthy and its `data`, a result with `success` falsy, or a rejected promise. -/
inductive ReviewsReply where
  | ok (data : List ExistingReview)
  | failed
  | threw
  deriving DecidableEq, Repr

/-- One observable effect of `loadOtherReviews`. -/
inductive LoadEffect where
  | setLoading (value : Bool)
  | getBookReviews (bookId : JSString)
  | setOtherReviews (reviews : List ExistingReview)
  | consoleError
  deriving DecidableEq, Repr

/-- The callback of the `filter` call:
`review => review.userId !== user.uid && !review.esPrivada` (lines 326-328). -/
def keepsReview (c : Closure) (review : ExistingReview) : Bool :=
  review.userId != c.user.uid && !(orFalse review.esPrivada)

/-- The function `loadOtherReviews`: its effects, in order. -/
def loadOtherReviews (c : Closure) (reply : ReviewsReply) : List LoadEffect :=
  match reply with
  | ReviewsReply.ok data =>
    [LoadEffect.setLoading true, LoadEffect.getBookReviews c.book.bookId,
      LoadEffect.setOtherReviews (data.filter (keepsReview c)), LoadEffect.setLoading false]
  | ReviewsReply.failed =>
    [LoadEffect.setLoading true, LoadEffect.getBookReviews c.book.bookId,
      LoadEffect.setLoading false]
  | ReviewsReply.threw =>
    [LoadEffect.setLoading true, LoadEffect.getBookReviews c.book.bookId,
      LoadEffect.consoleError, LoadEffect.setLoading false]

/-- The lists handed to `setOtherReviews`, in order. -/
def otherReviewsSet (t : List LoadEffect) : List (List ExistingReview) :=
  t.filterMap fun e =>
    match e with
    | LoadEffect.setOtherReviews l => some l
    | _ => none

/-! ## A render with the identity possibly absent -/

/-- What a render receives from `route.params`, `useAuth()` and its `useState` cells;
`user` is absent when nobody is signed in. -/
structure Session where
  book : Book
  existingReview : Option ExistingReview
  user : Option User
  userProfile : Option UserProfile
  state : FormState
  deriving DecidableEq, Repr

/-- The component body up to the creation of the handlers: evaluating the dependency
list `[book.bookId, user.uid]` (line 336) throws when `user` is absent, and then no
handler is created (`none`). -/
def render (s : Session) : Option Closure :=
  match s.user with
  | some u =>
    some { book := s.book, existingReview := s.existingReview, user := u,
           userProfile := s.userProfile, state := s.state }
  | none => none

/-- The exception of reading a property of `null` or `undefined`. -/
inductive JSError where
  | typeError
  deriving DecidableEq, Repr

/-- A save on the screen of a session. `handleSaveReview` is created at line 364, by a
render that got past line 336; when that render threw, no handler exists, nothing of
it runs, and what the session gets is the render's exception. -/
def saveOn (s : Session) (store : Store) (clock : Nat → JSString) :
    Except JSError (List Effect) :=
  match render s with
  | some c => Except.ok (handleSaveReview c store clock)
  | none => Except.error JSError.typeError

/-- A delete on the screen of a session. `handleDeleteReview` is created at line 419,
by a render that got past line 336; when that render threw, no handler exists. -/
def deleteOn (s : Session) (store : Store) : Except JSError (List Effect) :=
  match render s with
  | some c => Except.ok (handleDeleteReview c.existingReview store)
  | none => Except.error JSError.typeError

/-- The effects that took place: those of the handler that ran, none after a throw
of the render. -/
def effectsOf : Except JSError (List Effect) → List Effect
  | Except.ok t => t
  | Except.error _ => []

/-! ## The screen state under the effects and the user's actions -/

/-- The state after one effect: only the `useState` setters change it. -/
def applyEffect (s : FormState) : Effect → FormState
  | Effect.setSaving b => { s with saving := b }
  | Effect.setShowDeleteDialog b => { s with showDeleteDialog := b }
  | _ => s

/-- The state after a list of effects. -/
def applyEffects (s : FormState) (t : List Effect) : FormState :=
  t.foldl applyEffect s

/-- The array `[1, 2, 3, 4, 5]` the star icons are mapped from (line 652). -/
def stars : List Int := [1, 2, 3, 4, 5]

/-- An action of the user on the form: pressing the i-th star icon
(`setRating(star)`, line 658), editing the text (`onChangeText={setReviewText}`,
line 675), pressing the privacy button (`setIsPrivate(!isPrivate)`, line 699). -/
inductive Action where
  | pressStar (i : Fin 5)
  | changeText (text : JSString)
  | togglePrivacy
  deriving DecidableEq, Repr

/-- The state after one action. -/
def step (s : FormState) : Action → FormState
  | Action.pressStar i => { s with rating := stars.get ⟨i.1, i.2⟩ }
  | Action.changeText text => { s with reviewText := text }
  | Action.togglePrivacy => { s with isPrivate := !s.isPrivate }

/-- The state after a sequence of actions. -/
def run (s : FormState) (actions : List Action) : FormState :=
  actions.foldl step s

/-- The new-review screen of book `book` for user `user` after the given actions. -/
def newReviewAfter (book : Book) (user : User) (userProfile : Option UserProfile)
    (actions : List Action) : Closure where
  book := book
  existingReview := none
  user := user
  userProfile := userProfile
  state := run (initialState none) actions

/-- A session on book `B` with nobody signed in, opened on a stored review. -/
def sessionSignedOut : Session where
  book := bookB
  existingReview := some reviewDated
  user := none
  userProfile := none
  state := initialState (some reviewDated)

/-- Three stored reviews: by `A` public, by `B` private, by `C` public. -/
def threeReviews : List ExistingReview :=
  [ { reviewDated with id := [49], userId := [65], esPrivada := some false },
    { reviewDated with id := [50], userId := [66], esPrivada := some true },
    { reviewDated with id := [51], userId := [67], esPrivada := some false } ]

/-- The screen of the signed-in user `A` on book `B`. -/
def screenOfA : Closure :=
  { newReviewScreen with user := { userU with uid := [65] } }

end ReviewScreen

/-! # constants/firebase.js -/

namespace Firebase

/-- The object `EMULATOR_CONFIG.FIRESTORE_SETTINGS`. -/
structure FirestoreSettings where
  host : String
  ssl : Bool
  deriving DecidableEq, Repr

/-- The shape of the object `EMULATOR_CONFIG`. -/
structure EmulatorConfig where
  AUTH_URL : String
  FIRESTORE_URL : String
  STORAGE_URL : String
  PROJECT_ID : String
  FIRESTORE_SETTINGS : FirestoreSettings
  deriving DecidableEq, Repr

/-- The shape of the object `FIREBASE_CONFIG`. -/
structure FirebaseConfig where
  apiKey : String
  authDomain : String
  projectId : String
  storageBucket : String
  messagingSenderId : String
  appId : String
  deriving DecidableEq, Repr

/-- The objects of the module that `getFirebaseConfig` reads: they are mutable
objects behind `const` bindings, so the module's state is their current content.
`USE_EMULATORS` is `APP_CONFIG.USE_EMULATORS`. -/
structure Exports where
  EMULATOR_CONFIG : EmulatorConfig
  FIREBASE_CONFIG : FirebaseConfig
  USE_EMULATORS : Bool
  deriving DecidableEq, Repr

/-- The module as written (lines 9-33), `USE_EMULATORS` being `__DEV__`. -/
def exports (dev : Bool) : Exports where
  EMULATOR_CONFIG :=
    { AUTH_URL := "http://localhost:9099"
      FIRESTORE_URL := "http://localhost:8080"
      STORAGE_URL := "http://localhost:9199"
      PROJECT_ID := "mylibrary-demo"
      FIRESTORE_SETTINGS := { host := "localhost:8080", ssl := false } }
  FIREBASE_CONFIG :=
    { apiKey := "demo-api-key"
      authDomain := "mylibrary-demo.firebaseapp.com"
      projectId := "mylibrary-demo"
      storageBucket := "mylibrary-demo.appspot.com"
      messagingSenderId := "123456789"
      appId := "1:123456789:web:abcdef123456" }
  USE_EMULATORS := dev

/-- A returned reference: the object `FIREBASE_CONFIG` itself, or a new object. -/
inductive Ref where
  | firebaseConfig
  | fresh (value : FirebaseConfig)
  deriving DecidableEq, Repr

/-- The content of the object a reference points to. -/
def Ref.deref (x : Exports) : Ref → FirebaseConfig
  | Ref.firebaseConfig => x.FIREBASE_CONFIG
  | Ref.fresh value => value

/-- What a call of `getFirebaseConfig` does: its console line, the reference it
returns, and the module's objects after the call. -/
structure Outcome where
  log : String
  returned : Ref
  after : Exports
  deriving DecidableEq, Repr

/-- The function `getFirebaseConfig` (lines 80-91). The spread builds a new object
from the fields of `FIREBASE_CONFIG` and then sets `projectId`. -/
def getFirebaseConfig (x : Exports) : Outcome :=
  if x.USE_EMULATORS then
    { log := "🔧 Usando Firebase Emulators para desarrollo"
      returned := Ref.fresh { x.FIREBASE_CONFIG with projectId := x.EMULATOR_CONFIG.PROJECT_ID }
      after := x }
  else
    { log := "🚀 Usando Firebase en producción"
      returned := Ref.firebaseConfig
      after := x }

/-- A module whose two project ids differ. -/
def exportsOther : Exports :=
  { exports true with
    EMULATOR_CONFIG := { (exports true).EMULATOR_CONFIG with PROJECT_ID := "other-project" } }

end Firebase

/-! # screens/auth/LoginScreen.js -/

namespace LoginScreen

/-- A JavaScript string, as the sequence of its UTF-16 code units. -/
abbrev JSString := List Nat

/-- What the awaited `signIn` gives: a result with `success` truthy, a result with
`success` falsy and its possibly absent `error`, or a rejected promise. -/
inductive SignInReply where
  | ok
  | failed (error : Option String)
  | threw
  deriving DecidableEq, Repr

/-- One observable effect of `handleLogin`. A call of `validate()` is recorded with the
boolean it gave, a call of `signIn` with its arguments and its reply. -/
inductive Effect where
  | clearError
  | validateEmail (valid : Bool)
  | validatePassword (valid : Bool)
  | showError (message : String)
  | signIn (email : JSString) (password : JSString) (reply : SignInReply)
  | showLoginSuccess (userName : JSString)
  deriving DecidableEq, Repr

/-- The toast of the validation branch. -/
def msgFormErrors : String := "Por favor corrige los errores en el formulario"

/-- The fallback toast of a failed sign-in. -/
def msgSignInFailed : String := "Error al iniciar sesión"

/-- The toast of the `catch` block. -/
def msgUnexpected : String := "Error inesperado. Intenta de nuevo."

/-- The expression `result.error || 'Error al iniciar sesión'`. -/
def errorOr (error : Option String) : String :=
  match error with
  | some e => if e = "" then msgSignInFailed else e
  | none => msgSignInFailed

/-- The expression `email.value.split('@')[0]`: the code units before the first `@`. -/
def userNameOf (email : JSString) : JSString :=
  email.takeWhile fun c => c != 64

/-- The handler `handleLogin` (lines 153-175): its effects, in order. `emailValid` and
`passwordValid` are what `email.validate()` and `password.validate()` return (the hook
`useInputValidation` is a parameter), `signIn` is the reply of the auth context. -/
def handleLogin (email password : JSString) (emailValid passwordValid : Bool)
    (signIn : JSString → JSString → SignInReply) : List Effect :=
  [Effect.clearError, Effect.validateEmail emailValid,
    Effect.validatePassword passwordValid] ++
  if !emailValid || !passwordValid then
    [Effect.showError msgFormErrors]
  else
    match signIn email password with
    | SignInReply.ok =>
      [Effect.signIn email password SignInReply.ok,
        Effect.showLoginSuccess (userNameOf email)]
    | SignInReply.failed error =>
      [Effect.signIn email password (SignInReply.failed error),
        Effect.showError (errorOr error)]
    | SignInReply.threw =>
      [Effect.signIn email password SignInReply.threw, Effect.showError msgUnexpected]

/-- The `signIn` calls of a list of effects, with their arguments. -/
def signInCalls (t : List Effect) : List (JSString × JSString) :=
  t.filterMap fun e =>
    match e with
    | Effect.signIn email password _ => some (email, password)
    | _ => none

/-- The text `a@b`. -/
def emailAB : JSString := [97, 64, 98]

/-- The text `secret`. -/
def passwordSecret : JSString := [115, 101, 99, 114, 101, 116]

end LoginScreen

namespace ReviewScreen

/-! ## Facts about `trim` and the toasts -/

theorem trim_length_le (s : JSString) : (trim s).length ≤ s.length := by
  unfold trim
  exact le_trans (List.rdropWhile_prefix isTrimChar _).length_le
    (List.dropWhile_suffix isTrimChar).length_le

theorem msgTooShort_ne_msgTooLong : msgTooShort ≠ msgTooLong := by decide

theorem msgNoRating_ne_msgTooShort : msgNoRating ≠ msgTooShort := by decide

theorem msgNoRating_ne_msgTooLong : msgNoRating ≠ msgTooLong := by decide

/-! ## Validation -/

/-- C1: for a non-zero rating, `validateForm` rejects with the too-short toast exactly
when the trimmed text has fewer than 10 code units; a trimmed length of exactly 10 is
not rejected as too short. -/
theorem validateForm_tooShort_iff (s : FormState) (h : s.rating ≠ 0) :
    (validateForm s = (false, [Effect.showError msgTooShort]) ↔
      (trim s.reviewText).length < 10) ∧
    ((trim s.reviewText).length = 10 →
      validateForm s ≠ (false, [Effect.showError msgTooShort])) := by
  have key : validateForm s = (false, [Effect.showError msgTooShort]) ↔
      (trim s.reviewText).length < 10 := by
    unfold validateForm
    by_cases h10 : (trim s.reviewText).length < 10
    · simp [h, h10]
    · by_cases hmax : s.reviewText.length > maxCharacters
      · simpa [h, h10, hmax] using fun e => msgTooShort_ne_msgTooLong e.symm
      · simp [h, h10, hmax]
  refine ⟨key, fun h10 hv => ?_⟩
  have := key.mp hv
  omega

theorem validateForm_tooShort_iff_witness :
    (formOf 4 textShort).rating ≠ 0 ∧
    validateForm (formOf 4 textShort) = (false, [Effect.showError msgTooShort]) :=
  ⟨by decide,
    (validateForm_tooShort_iff (formOf 4 textShort) (by decide)).1.mpr (by decide)⟩

/-- C2, as stated, fails: a thousand letters followed by a space have trimmed length
exactly 1000 and a rating of 5, yet `validateForm` rejects them with the too-long toast. -/
theorem validateForm_tooLong_counterexample :
    (formOf 5 textPadded).rating ≠ 0 ∧
    (trim (formOf 5 textPadded).reviewText).length = 1000 ∧
    validateForm (formOf 5 textPadded) = (false, [Effect.showError msgTooLong]) := by
  refine ⟨by decide, ?_, ?_⟩
  · set_option maxRecDepth 100000 in decide
  · set_option maxRecDepth 100000 in decide

/-- C2, amended: for a non-zero rating and a trimmed length of at least 10,
`validateForm` rejects with the too-long toast exactly when the text as typed (not
trimmed) has more than 1000 code units. So every text whose trimmed length exceeds
1000 is rejected, and every text of at most 1000 code units as typed is accepted. -/
theorem validateForm_tooLong_iff_untrimmed (s : FormState) (h : s.rating ≠ 0)
    (h10 : 10 ≤ (trim s.reviewText).length) :
    (validateForm s = (false, [Effect.showError msgTooLong]) ↔
      s.reviewText.length > 1000) ∧
    ((trim s.reviewText).length > 1000 →
      validateForm s = (false, [Effect.showError msgTooLong])) ∧
    (s.reviewText.length ≤ 1000 → validateForm s = (true, [])) := by
  have hlt : ¬ (trim s.reviewText).length < 10 := by omega
  have key : validateForm s = (false, [Effect.showError msgTooLong]) ↔
      s.reviewText.length > 1000 := by
    unfold validateForm
    by_cases hc : s.reviewText.length > 1000
    · have hmax : s.reviewText.length > maxCharacters := hc
      simp [h, hlt, hmax, hc]
    · have hmax : ¬ s.reviewText.length > maxCharacters := hc
      simp [h, hlt, hmax]
      omega
  refine ⟨key, fun ht => key.mpr ?_, fun hle => ?_⟩
  · have := trim_length_le s.reviewText
    omega
  · unfold validateForm
    have hmax : ¬ s.reviewText.length > maxCharacters := by
      simp only [maxCharacters]; omega
    simp [h, hlt, hmax]

theorem validateForm_tooLong_iff_untrimmed_witness :
    (formOf 5 textPadded).rating ≠ 0 ∧
    10 ≤ (trim (formOf 5 textPadded).reviewText).length ∧
    validateForm (formOf 5 textPadded) = (false, [Effect.showError msgTooLong]) :=
  ⟨by decide, by set_option maxRecDepth 100000 in decide,
    (validateForm_tooLong_iff_untrimmed (formOf 5 textPadded) (by decide)
      (by set_option maxRecDepth 100000 in decide)).1.mpr
      (by set_option maxRecDepth 100000 in decide)⟩

/-- C3: whatever the text and the privacy flag, `validateForm` on a rating of 0 fails
with the missing-rating toast and no other, and the screen starts from a rating of 0
when no rating is supplied (no existing review, or one without `calificacion`). -/
theorem validateForm_missing_rating (s : FormState) (e : ExistingReview) :
    validateForm { s with rating := 0 } = (false, [Effect.showError msgNoRating]) ∧
    (initialState none).rating = 0 ∧
    (initialState (some { e with calificacion := none })).rating = 0 := by
  refine ⟨?_, rfl, rfl⟩
  simp [validateForm]

/-- C4, as stated, fails: a rating of 6 with the text "Great book" passes
`validateForm`, which shows no toast at all. -/
theorem validateForm_rating_counterexample :
    (6 : Int) ∉ ({1, 2, 3, 4, 5} : Finset Int) ∧ (6 : Int) ≠ 0 ∧
    validateForm (formOf 6 textGreatBook) = (true, []) := by
  refine ⟨by decide, by decide, by decide⟩

/-- C4, amended: `validateForm` has no rating-out-of-range failure. Its only rating
check is `rating === 0`: for every non-zero rating, inside or outside 1..5, the verdict
is the one the text alone decides (accepted, too short or too long). -/
theorem validateForm_rating_only_zero (s : FormState) (h : s.rating ≠ 0) :
    validateForm s = validateForm { s with rating := 1 } ∧
    (validateForm s = (true, []) ∨
      validateForm s = (false, [Effect.showError msgTooShort]) ∨
      validateForm s = (false, [Effect.showError msgTooLong])) := by
  unfold validateForm
  by_cases h10 : (trim s.reviewText).length < 10
  · simp [h, h10]
  · by_cases hmax : s.reviewText.length > maxCharacters
    · simp [h, h10, hmax]
    · simp [h, h10, hmax]

theorem validateForm_rating_only_zero_witness :
    (formOf 6 textGreatBook).rating ≠ 0 ∧
    validateForm (formOf 6 textGreatBook) =
      validateForm { formOf 6 textGreatBook with rating := 1 } :=
  ⟨by decide, (validateForm_rating_only_zero (formOf 6 textGreatBook) (by decide)).1⟩

/-! ## Facts about the save handler -/

theorem validateForm_effects_of_valid (s : FormState) (h : (validateForm s).1 = true) :
    (validateForm s).2 = [] := by
  unfold validateForm at h ⊢
  split_ifs at h ⊢
  rfl

theorem validateForm_bounds_of_valid (s : FormState) (h : (validateForm s).1 = true) :
    s.rating ≠ 0 ∧ 10 ≤ (trim s.reviewText).length ∧ s.reviewText.length ≤ 1000 := by
  unfold validateForm at h
  split_ifs at h with h0 h10 hmax
  simp only [maxCharacters] at hmax
  exact ⟨h0, by omega, by omega⟩

theorem handleSaveReview_valid (c : Closure) (store : Store) (clock : Nat → JSString)
    (h : (validateForm c.state).1 = true) :
    handleSaveReview c store clock =
      Effect.setSaving true :: (saveBody c store clock ++ [Effect.setSaving false]) := by
  simp [handleSaveReview, h, validateForm_effects_of_valid c.state h]

theorem handleSaveReview_invalid (c : Closure) (store : Store) (clock : Nat → JSString)
    (h : (validateForm c.state).1 = false) :
    ∃ m, handleSaveReview c store clock = [Effect.showError m] := by
  simp only [handleSaveReview, h]
  unfold validateForm at h ⊢
  split_ifs at h ⊢ <;> simp_all

theorem isReviewWrite_reviewWrite (c : Closure) (d : ReviewData) :
    isReviewWrite (reviewWrite c d) = true := by
  unfold reviewWrite
  cases c.existingReview <;> rfl

theorem isLibraryWrite_reviewWrite (c : Closure) (d : ReviewData) :
    isLibraryWrite (reviewWrite c d) = false := by
  unfold reviewWrite
  cases c.existingReview <;> rfl

theorem isDelete_reviewWrite (c : Closure) (d : ReviewData) :
    isDelete (reviewWrite c d) = false := by
  unfold reviewWrite
  cases c.existingReview <;> rfl

theorem isReviewWrite_libraryWrite (c : Closure) (clock : Nat → JSString) :
    isReviewWrite (libraryWrite c clock) = false := rfl

theorem isDelete_libraryWrite (c : Closure) (clock : Nat → JSString) :
    isDelete (libraryWrite c clock) = false := rfl

theorem saveBody_of_write_failed (c : Closure) (store : Store) (clock : Nat → JSString)
    (h : store (reviewWrite c (reviewData c clock)) ≠ Reply.ok) :
    saveBody c store clock =
      [Effect.store (reviewWrite c (reviewData c clock))
          (store (reviewWrite c (reviewData c clock))),
        Effect.showError msgSaveFailed] := by
  unfold saveBody
  cases hr : store (reviewWrite c (reviewData c clock)) <;> simp_all

theorem saveBody_of_library_threw (c : Closure) (store : Store) (clock : Nat → JSString)
    (hw : store (reviewWrite c (reviewData c clock)) = Reply.ok)
    (hu : store (libraryWrite c clock) = Reply.threw) :
    saveBody c store clock =
      [Effect.store (reviewWrite c (reviewData c clock)) Reply.ok,
        Effect.store (libraryWrite c clock) Reply.threw,
        Effect.showError msgSaveFailed] := by
  simp [saveBody, hw, hu]

theorem saveBody_of_library_returned (c : Closure) (store : Store) (clock : Nat → JSString)
    (hw : store (reviewWrite c (reviewData c clock)) = Reply.ok)
    (hu : store (libraryWrite c clock) ≠ Reply.threw) :
    saveBody c store clock =
      [Effect.store (reviewWrite c (reviewData c clock)) Reply.ok,
        Effect.store (libraryWrite c clock) (store (libraryWrite c clock)),
        Effect.showSuccess (msgSaved c), Effect.goBack] := by
  unfold saveBody
  simp only [hw]

theorem recordsWritten_handleSaveReview (c : Closure) (store : Store)
    (clock : Nat → JSString) (h : (validateForm c.state).1 = true) :
    recordsWritten (handleSaveReview c store clock) = [reviewData c clock] := by
  rw [handleSaveReview_valid c store clock h]
  by_cases hw : store (reviewWrite c (reviewData c clock)) = Reply.ok
  · by_cases hu : store (libraryWrite c clock) = Reply.threw
    · rw [saveBody_of_library_threw c store clock hw hu]
      unfold reviewWrite
      cases c.existingReview <;> simp [recordsWritten, storeCalls, libraryWrite]
    · rw [saveBody_of_library_returned c store clock hw hu]
      unfold reviewWrite
      cases c.existingReview <;> simp [recordsWritten, storeCalls, libraryWrite]
  · rw [saveBody_of_write_failed c store clock hw]
    unfold reviewWrite
    cases c.existingReview <;> simp [recordsWritten, storeCalls]

theorem reported_handleSaveReview_of_write_failed (c : Closure) (store : Store)
    (clock : Nat → JSString) (hv : (validateForm c.state).1 = true)
    (hw : store (reviewWrite c (reviewData c clock)) ≠ Reply.ok) :
    reported (handleSaveReview c store clock) = [Effect.showError msgSaveFailed] := by
  rw [handleSaveReview_valid c store clock hv, saveBody_of_write_failed c store clock hw]
  simp [reported]

theorem reported_handleSaveReview_of_library_threw (c : Closure) (store : Store)
    (clock : Nat → JSString) (hv : (validateForm c.state).1 = true)
    (hw : store (reviewWrite c (reviewData c clock)) = Reply.ok)
    (hu : store (libraryWrite c clock) = Reply.threw) :
    reported (handleSaveReview c store clock) = [Effect.showError msgSaveFailed] := by
  rw [handleSaveReview_valid c store clock hv, saveBody_of_library_threw c store clock hw hu]
  simp [reported]

theorem reported_handleSaveReview_of_library_returned (c : Closure) (store : Store)
    (clock : Nat → JSString) (hv : (validateForm c.state).1 = true)
    (hw : store (reviewWrite c (reviewData c clock)) = Reply.ok)
    (hu : store (libraryWrite c clock) ≠ Reply.threw) :
    reported (handleSaveReview c store clock) =
      [Effect.showSuccess (msgSaved c), Effect.goBack] := by
  rw [handleSaveReview_valid c store clock hv,
    saveBody_of_library_returned c store clock hw hu]
  simp [reported]

/-! ## The save: ordering of the two writes and what is reported -/

/-- C5: in a save, every call of `updateBookInLibrary` comes after the review write
(`createReview` or `updateReview`) has returned success; and when the store answers
the review write with a failure result or throws, no `updateBookInLibrary` call is
made and the save reports an error toast (and nothing else). -/
theorem handleSaveReview_library_after_write (c : Closure) (store : Store)
    (clock : Nat → JSString) :
    (∀ pre post u r,
        handleSaveReview c store clock = pre ++ Effect.store u r :: post →
        isLibraryWrite u = true →
        isReviewWrite (reviewWrite c (reviewData c clock)) = true ∧
        Effect.store (reviewWrite c (reviewData c clock)) Reply.ok ∈ pre) ∧
    (store (reviewWrite c (reviewData c clock)) ≠ Reply.ok →
        (storeCalls (handleSaveReview c store clock)).filter isLibraryWrite = [] ∧
        ∃ m, reported (handleSaveReview c store clock) = [Effect.showError m]) := by
  have hnw := isLibraryWrite_reviewWrite c (reviewData c clock)
  constructor
  · intro pre post u r h hu
    refine ⟨isReviewWrite_reviewWrite c _, ?_⟩
    by_cases hv : (validateForm c.state).1 = true
    · rw [handleSaveReview_valid c store clock hv] at h
      by_cases hw : store (reviewWrite c (reviewData c clock)) = Reply.ok
      · by_cases ht : store (libraryWrite c clock) = Reply.threw
        · rw [saveBody_of_library_threw c store clock hw ht] at h
          simp only [List.cons_append, List.nil_append, List.cons_eq_append_iff] at h
          rcases h with ⟨_, h⟩ | ⟨a, rfl, h⟩
          · simp at h
          · rcases h with ⟨rfl, h⟩ | ⟨b, rfl, _⟩
            · simp only [List.cons.injEq, Effect.store.injEq] at h
              rw [← h.1.1, hu] at hnw
              exact absurd hnw (by decide)
            · simp
        · rw [saveBody_of_library_returned c store clock hw ht] at h
          simp only [List.cons_append, List.nil_append, List.cons_eq_append_iff] at h
          rcases h with ⟨_, h⟩ | ⟨a, rfl, h⟩
          · simp at h
          · rcases h with ⟨rfl, h⟩ | ⟨b, rfl, _⟩
            · simp only [List.cons.injEq, Effect.store.injEq] at h
              rw [← h.1.1, hu] at hnw
              exact absurd hnw (by decide)
            · simp
      · rw [saveBody_of_write_failed c store clock hw] at h
        simp only [List.cons_append, List.nil_append, List.cons_eq_append_iff] at h
        rcases h with ⟨_, h⟩ | ⟨a, rfl, h⟩
        · simp at h
        · rcases h with ⟨rfl, h⟩ | ⟨b, rfl, h⟩
          · simp only [List.cons.injEq, Effect.store.injEq] at h
            rw [← h.1.1, hu] at hnw
            exact absurd hnw (by decide)
          · simp [List.cons_eq_append_iff] at h
    · obtain ⟨m, hm⟩ := handleSaveReview_invalid c store clock (by simpa using hv)
      rw [hm] at h
      simp [List.cons_eq_append_iff] at h
  · intro hw
    by_cases hv : (validateForm c.state).1 = true
    · refine ⟨?_, msgSaveFailed, reported_handleSaveReview_of_write_failed c store clock hv hw⟩
      rw [handleSaveReview_valid c store clock hv, saveBody_of_write_failed c store clock hw]
      simp [storeCalls, hnw]
    · obtain ⟨m, hm⟩ := handleSaveReview_invalid c store clock (by simpa using hv)
      rw [hm]
      exact ⟨by simp [storeCalls], m, by simp [reported]⟩

theorem handleSaveReview_library_after_write_witness :
    storeWriteFails (reviewWrite newReviewScreen (reviewData newReviewScreen tick)) ≠ Reply.ok ∧
    (storeCalls (handleSaveReview newReviewScreen storeWriteFails tick)).filter
      isLibraryWrite = [] ∧
    Effect.store (reviewWrite newReviewScreen (reviewData newReviewScreen tick)) Reply.ok ∈
      [Effect.setSaving true,
        Effect.store (reviewWrite newReviewScreen (reviewData newReviewScreen tick)) Reply.ok] :=
  ⟨by decide,
    ((handleSaveReview_library_after_write newReviewScreen storeWriteFails tick).2
      (by decide)).1,
    ((handleSaveReview_library_after_write newReviewScreen storeAllOk tick).1
      [Effect.setSaving true,
        Effect.store (reviewWrite newReviewScreen (reviewData newReviewScreen tick)) Reply.ok]
      [Effect.showSuccess (msgSaved newReviewScreen), Effect.goBack, Effect.setSaving false]
      (libraryWrite newReviewScreen tick) Reply.ok (by decide) (by decide)).2⟩

/-- C6, as stated, fails. On a new-review screen with a valid form and a store whose
`createReview` succeeds: when `updateBookInLibrary` returns a failure result, the save
reports exactly what a fully successful save reports (success toast, navigation back);
when it throws, the save reports exactly what a save whose review write failed reports. -/
theorem handleSaveReview_library_failure_counterexample :
    storeLibraryFails (reviewWrite newReviewScreen (reviewData newReviewScreen tick)) = Reply.ok ∧
    storeLibraryFails (libraryWrite newReviewScreen tick) = Reply.failed [] ∧
    reported (handleSaveReview newReviewScreen storeLibraryFails tick) =
      reported (handleSaveReview newReviewScreen storeAllOk tick) ∧
    storeLibraryThrows (reviewWrite newReviewScreen (reviewData newReviewScreen tick)) = Reply.ok ∧
    storeLibraryThrows (libraryWrite newReviewScreen tick) = Reply.threw ∧
    reported (handleSaveReview newReviewScreen storeLibraryThrows tick) =
      reported (handleSaveReview newReviewScreen storeWriteFails tick) := by
  decide

/-- C6, amended: when the review write succeeds and `updateBookInLibrary` fails, the
save reports no outcome of its own. If the update throws, it reports what a save whose
review write failed reports (`bad`: the error toast, no navigation back); if the update
returns a failure result, the result is discarded and the save reports what a fully
successful save reports (`good`: the success toast and the navigation back). -/
theorem handleSaveReview_library_failure_outcome (c : Closure) (store good bad : Store)
    (clock : Nat → JSString) (hv : (validateForm c.state).1 = true)
    (hw : store (reviewWrite c (reviewData c clock)) = Reply.ok)
    (_hu : store (libraryWrite c clock) ≠ Reply.ok)
    (hgw : good (reviewWrite c (reviewData c clock)) = Reply.ok)
    (hgu : good (libraryWrite c clock) = Reply.ok)
    (hb : bad (reviewWrite c (reviewData c clock)) ≠ Reply.ok) :
    (store (libraryWrite c clock) = Reply.threw →
      reported (handleSaveReview c store clock) = [Effect.showError msgSaveFailed] ∧
      reported (handleSaveReview c store clock) = reported (handleSaveReview c bad clock)) ∧
    (store (libraryWrite c clock) ≠ Reply.threw →
      reported (handleSaveReview c store clock) =
        [Effect.showSuccess (msgSaved c), Effect.goBack] ∧
      reported (handleSaveReview c store clock) = reported (handleSaveReview c good clock)) := by
  have hgood := reported_handleSaveReview_of_library_returned c good clock hv hgw
    (by rw [hgu]; decide)
  have hbad := reported_handleSaveReview_of_write_failed c bad clock hv hb
  constructor
  · intro ht
    have := reported_handleSaveReview_of_library_threw c store clock hv hw ht
    exact ⟨this, by rw [this, hbad]⟩
  · intro ht
    have := reported_handleSaveReview_of_library_returned c store clock hv hw ht
    exact ⟨this, by rw [this, hgood]⟩

theorem handleSaveReview_library_failure_outcome_witness :
    (validateForm newReviewScreen.state).1 = true ∧
    storeLibraryFails (libraryWrite newReviewScreen tick) ≠ Reply.ok ∧
    reported (handleSaveReview newReviewScreen storeLibraryFails tick) =
      [Effect.showSuccess (msgSaved newReviewScreen), Effect.goBack] :=
  ⟨by decide, by decide,
    ((handleSaveReview_library_failure_outcome newReviewScreen storeLibraryFails storeAllOk
      storeWriteFails tick (by decide) (by decide) (by decide) (by decide) (by decide)
      (by decide)).2 (by decide)).1⟩

/-! ## The record handed to the store -/

/-- C7: when the form passes validation, the save hands exactly one record to the
store; its `texto` is the typed text with leading and trailing white space removed,
and the length of that `texto` lies between 10 and 1000 inclusive. -/
theorem handleSaveReview_texto (c : Closure) (store : Store) (clock : Nat → JSString)
    (hv : (validateForm c.state).1 = true) :
    ∃ d, recordsWritten (handleSaveReview c store clock) = [d] ∧
      d.texto = trim c.state.reviewText ∧
      10 ≤ d.texto.length ∧ d.texto.length ≤ 1000 := by
  refine ⟨reviewData c clock, recordsWritten_handleSaveReview c store clock hv, rfl, ?_⟩
  have hb := validateForm_bounds_of_valid c.state hv
  have hle := trim_length_le c.state.reviewText
  show 10 ≤ (trim c.state.reviewText).length ∧ (trim c.state.reviewText).length ≤ 1000
  omega

theorem handleSaveReview_texto_witness :
    (validateForm newReviewScreen.state).1 = true ∧
    ∃ d, recordsWritten (handleSaveReview newReviewScreen storeAllOk tick) = [d] ∧
      d.texto = trim newReviewScreen.state.reviewText ∧
      10 ≤ d.texto.length ∧ d.texto.length ≤ 1000 :=
  ⟨by decide, handleSaveReview_texto newReviewScreen storeAllOk tick (by decide)⟩

/-- C8: when the form passes validation, the save issues exactly one review write:
`updateReview` addressed to the existing review's id when an existing review was
supplied, `createReview` otherwise, both with the record `reviewData` (which has no
id field); and it never calls `deleteReview`. -/
theorem handleSaveReview_one_review_write (c : Closure) (store : Store)
    (clock : Nat → JSString) (hv : (validateForm c.state).1 = true) :
    (storeCalls (handleSaveReview c store clock)).filter isReviewWrite =
      [reviewWrite c (reviewData c clock)] ∧
    (∀ e, c.existingReview = some e →
      reviewWrite c (reviewData c clock) = StoreCall.updateReview e.id (reviewData c clock)) ∧
    (c.existingReview = none →
      reviewWrite c (reviewData c clock) = StoreCall.createReview (reviewData c clock)) ∧
    (storeCalls (handleSaveReview c store clock)).filter isDelete = [] := by
  have h1 := isReviewWrite_reviewWrite c (reviewData c clock)
  have h2 := isDelete_reviewWrite c (reviewData c clock)
  have h3 := isReviewWrite_libraryWrite c clock
  have h4 := isDelete_libraryWrite c clock
  refine ⟨?_, fun e he => by simp [reviewWrite, he], fun he => by simp [reviewWrite, he], ?_⟩
  all_goals
    rw [handleSaveReview_valid c store clock hv]
    by_cases hw : store (reviewWrite c (reviewData c clock)) = Reply.ok
    · by_cases ht : store (libraryWrite c clock) = Reply.threw
      · rw [saveBody_of_library_threw c store clock hw ht]
        simp [storeCalls, h1, h2, h3, h4]
      · rw [saveBody_of_library_returned c store clock hw ht]
        simp [storeCalls, h1, h2, h3, h4]
    · rw [saveBody_of_write_failed c store clock hw]
      simp [storeCalls, h1, h2]

theorem handleSaveReview_one_review_write_witness :
    (validateForm newReviewScreen.state).1 = true ∧
    (storeCalls (handleSaveReview newReviewScreen storeAllOk tick)).filter isReviewWrite =
      [StoreCall.createReview (reviewData newReviewScreen tick)] :=
  ⟨by decide,
    (handleSaveReview_one_review_write newReviewScreen storeAllOk tick (by decide)).1⟩

/-- C9, as stated, fails: on an edit of a stored review whose `fechaCreacion` is
missing, or is the empty string, the record handed to the store carries the first
clock reading of the save as its `fechaCreacion`. -/
theorem handleSaveReview_fechaCreacion_counterexample :
    (editScreen reviewNoDate).existingReview = some reviewNoDate ∧
    reviewNoDate.fechaCreacion = none ∧
    (recordsWritten (handleSaveReview (editScreen reviewNoDate) storeAllOk tick)).map
      (fun d => d.fechaCreacion) = [tick 0] ∧
    (editScreen reviewEmptyDate).existingReview = some reviewEmptyDate ∧
    reviewEmptyDate.fechaCreacion = some [] ∧
    (recordsWritten (handleSaveReview (editScreen reviewEmptyDate) storeAllOk tick)).map
      (fun d => d.fechaCreacion) = [tick 0] ∧
    tick 0 ≠ [] := by
  decide

/-- C9, amended: on an edit that passes validation, the record handed to the store has
the existing review's `fechaCreacion` whenever that field is present and not empty;
when it is missing or empty, the record's `fechaCreacion` is the first clock reading. -/
theorem handleSaveReview_fechaCreacion_edit (c : Closure) (store : Store)
    (clock : Nat → JSString) (e : ExistingReview) (he : c.existingReview = some e)
    (hv : (validateForm c.state).1 = true) :
    ∃ d, recordsWritten (handleSaveReview c store clock) = [d] ∧
      (∀ t, e.fechaCreacion = some t → t ≠ [] → d.fechaCreacion = t) ∧
      (e.fechaCreacion = none ∨ e.fechaCreacion = some [] → d.fechaCreacion = clock 0) := by
  refine ⟨reviewData c clock, recordsWritten_handleSaveReview c store clock hv, ?_, ?_⟩
  · intro t ht hne
    cases t with
    | nil => exact absurd rfl hne
    | cons a l => simp [reviewData, fechaCreacionOf, he, ht, truthyStr]
  · intro h
    rcases h with h | h <;> simp [reviewData, fechaCreacionOf, he, h, truthyStr]

theorem handleSaveReview_fechaCreacion_edit_witness :
    (editScreen reviewDated).existingReview = some reviewDated ∧
    (validateForm (editScreen reviewDated).state).1 = true ∧
    reviewDated.fechaCreacion = some [57] ∧
    ∃ d, recordsWritten (handleSaveReview (editScreen reviewDated) storeAllOk tick) = [d] ∧
      (∀ t, reviewDated.fechaCreacion = some t → t ≠ [] → d.fechaCreacion = t) ∧
      (reviewDated.fechaCreacion = none ∨ reviewDated.fechaCreacion = some [] →
        d.fechaCreacion = tick 0) :=
  ⟨rfl, by decide, rfl,
    handleSaveReview_fechaCreacion_edit (editScreen reviewDated) storeAllOk tick reviewDated
      rfl (by decide)⟩

/-- C10, as stated, fails: editing a stored review of book `C` by user `V` on a screen
opened on book `B` by user `U` hands the store a record with `bookId` `B` and
`userId` `U`, not those of the stored review. -/
theorem handleSaveReview_identity_counterexample :
    (editScreen reviewElsewhere).existingReview = some reviewElsewhere ∧
    (recordsWritten (handleSaveReview (editScreen reviewElsewhere) storeAllOk tick)).map
      (fun d => (d.bookId, d.userId)) = [(bookB.bookId, userU.uid)] ∧
    bookB.bookId ≠ reviewElsewhere.bookId ∧
    userU.uid ≠ reviewElsewhere.userId := by
  decide

/-- C10, amended: on an edit that passes validation, the record handed to the store has
the `bookId` of the book the screen was opened with and the `uid` of the signed-in
user; they are the existing review's `bookId` and `userId` exactly when the screen was
opened with that book and that user. -/
theorem handleSaveReview_identity_edit (c : Closure) (store : Store)
    (clock : Nat → JSString) (e : ExistingReview) (_he : c.existingReview = some e)
    (hv : (validateForm c.state).1 = true) :
    ∃ d, recordsWritten (handleSaveReview c store clock) = [d] ∧
      d.bookId = c.book.bookId ∧ d.userId = c.user.uid ∧
      (d.bookId = e.bookId ↔ c.book.bookId = e.bookId) ∧
      (d.userId = e.userId ↔ c.user.uid = e.userId) :=
  ⟨reviewData c clock, recordsWritten_handleSaveReview c store clock hv, rfl, rfl,
    Iff.rfl, Iff.rfl⟩

theorem handleSaveReview_identity_edit_witness :
    (editScreen reviewDated).existingReview = some reviewDated ∧
    (validateForm (editScreen reviewDated).state).1 = true ∧
    ∃ d, recordsWritten (handleSaveReview (editScreen reviewDated) storeAllOk tick) = [d] ∧
      d.bookId = (editScreen reviewDated).book.bookId ∧
      d.userId = (editScreen reviewDated).user.uid ∧
      (d.bookId = reviewDated.bookId ↔ (editScreen reviewDated).book.bookId = reviewDated.bookId) ∧
      (d.userId = reviewDated.userId ↔ (editScreen reviewDated).user.uid = reviewDated.userId) :=
  ⟨rfl, by decide,
    handleSaveReview_identity_edit (editScreen reviewDated) storeAllOk tick reviewDated
      rfl (by decide)⟩

/-! ## The dates of the record and of the library update -/

theorem storeCalls_handleSaveReview_of_ok (c : Closure) (store : Store)
    (clock : Nat → JSString) (hv : (validateForm c.state).1 = true)
    (hw : store (reviewWrite c (reviewData c clock)) = Reply.ok) :
    storeCalls (handleSaveReview c store clock) =
      [reviewWrite c (reviewData c clock), libraryWrite c clock] := by
  rw [handleSaveReview_valid c store clock hv]
  by_cases ht : store (libraryWrite c clock) = Reply.threw
  · rw [saveBody_of_library_threw c store clock hw ht]
    simp [storeCalls]
  · rw [saveBody_of_library_returned c store clock hw ht]
    simp [storeCalls]

theorem storeCalls_handleSaveReview_of_failed (c : Closure) (store : Store)
    (clock : Nat → JSString) (hv : (validateForm c.state).1 = true)
    (hw : store (reviewWrite c (reviewData c clock)) ≠ Reply.ok) :
    storeCalls (handleSaveReview c store clock) = [reviewWrite c (reviewData c clock)] := by
  rw [handleSaveReview_valid c store clock hv, saveBody_of_write_failed c store clock hw]
  simp [storeCalls]

theorem fechaCreacionOf_new (c : Closure) (clock : Nat → JSString)
    (he : c.existingReview = none) : fechaCreacionOf c clock = (clock 0, 1) := by
  simp [fechaCreacionOf, he, truthyStr]

/-- C11, as stated, fails: a new review saved under a clock whose first two readings
differ ("0", then "1") gets the first reading as `fechaCreacion` and the second as
`fechaActualizacion`, which are not equal. -/
theorem handleSaveReview_new_dates_counterexample :
    newReviewScreen.existingReview = none ∧
    (recordsWritten (handleSaveReview newReviewScreen storeAllOk tick)).map
      (fun d => (d.fechaCreacion, d.fechaActualizacion)) = [(tick 0, tick 1)] ∧
    tick 0 ≠ tick 1 := by
  decide

/-- C11, amended: for a new review that passes validation, the record is handed to
`createReview` (a record without id field, and no id argument), its `fechaCreacion` is
the first clock reading of the save and its `fechaActualizacion` the second one; the
two are equal whenever the clock gave the same value at both readings. -/
theorem handleSaveReview_new_dates (c : Closure) (store : Store) (clock : Nat → JSString)
    (he : c.existingReview = none) (hv : (validateForm c.state).1 = true) :
    ∃ d, recordsWritten (handleSaveReview c store clock) = [d] ∧
      reviewWrite c d = StoreCall.createReview d ∧
      d.fechaCreacion = clock 0 ∧ d.fechaActualizacion = clock 1 ∧
      (clock 0 = clock 1 → d.fechaCreacion = d.fechaActualizacion) := by
  have hf := fechaCreacionOf_new c clock he
  have h0 : (reviewData c clock).fechaCreacion = clock 0 := by
    show (fechaCreacionOf c clock).1 = clock 0
    rw [hf]
  have h1 : (reviewData c clock).fechaActualizacion = clock 1 := by
    show clock (fechaCreacionOf c clock).2 = clock 1
    rw [hf]
  refine ⟨reviewData c clock, recordsWritten_handleSaveReview c store clock hv, ?_, h0, h1, ?_⟩
  · simp [reviewWrite, he]
  · intro h
    rw [h0, h1, h]

theorem handleSaveReview_new_dates_witness :
    newReviewScreen.existingReview = none ∧
    (validateForm newReviewScreen.state).1 = true ∧
    ∃ d, recordsWritten (handleSaveReview newReviewScreen storeAllOk (fun _ => tick 7)) = [d] ∧
      reviewWrite newReviewScreen d = StoreCall.createReview d ∧
      d.fechaCreacion = tick 7 ∧ d.fechaActualizacion = tick 7 ∧
      (tick 7 = tick 7 → d.fechaCreacion = d.fechaActualizacion) :=
  ⟨rfl, by decide,
    handleSaveReview_new_dates newReviewScreen storeAllOk (fun _ => tick 7) rfl (by decide)⟩

/-- C12, as stated, fails: on a new review saved under the clock "0", "1", "2" with a
store that accepts every call, the record's `fechaActualizacion` is "1" while the
library update carries the `fechaCalificacion` "2". -/
theorem handleSaveReview_library_date_counterexample :
    storeAllOk (reviewWrite newReviewScreen (reviewData newReviewScreen tick)) = Reply.ok ∧
    (recordsWritten (handleSaveReview newReviewScreen storeAllOk tick)).map
      (fun d => d.fechaActualizacion) = [tick 1] ∧
    (storeCalls (handleSaveReview newReviewScreen storeAllOk tick)).filter isLibraryWrite =
      [StoreCall.updateBookInLibrary userU.uid bookB.bookId
        { calificacionUsuario := 5, fechaCalificacion := tick 2 }] ∧
    tick 2 ≠ tick 1 := by
  decide

/-- C12, amended: when the form is valid and the review write succeeds, the save calls
`updateBookInLibrary` once, with the record's `userId`, the record's `bookId`, a
`calificacionUsuario` equal to the record's `calificacion`, and a `fechaCalificacion`
that is the clock reading following the one of the record's `fechaActualizacion`; it
equals `fechaActualizacion` whenever the clock gave the same value at both readings. -/
theorem handleSaveReview_library_arguments (c : Closure) (store : Store)
    (clock : Nat → JSString) (hv : (validateForm c.state).1 = true)
    (hw : store (reviewWrite c (reviewData c clock)) = Reply.ok) :
    ∃ d k, recordsWritten (handleSaveReview c store clock) = [d] ∧
      d.fechaActualizacion = clock k ∧
      (storeCalls (handleSaveReview c store clock)).filter isLibraryWrite =
        [StoreCall.updateBookInLibrary d.userId d.bookId
          { calificacionUsuario := d.calificacion, fechaCalificacion := clock (k + 1) }] ∧
      (clock (k + 1) = clock k →
        (storeCalls (handleSaveReview c store clock)).filter isLibraryWrite =
          [StoreCall.updateBookInLibrary d.userId d.bookId
            { calificacionUsuario := d.calificacion,
              fechaCalificacion := d.fechaActualizacion }]) := by
  have hcalls : (storeCalls (handleSaveReview c store clock)).filter isLibraryWrite =
      [libraryWrite c clock] := by
    have hl : isLibraryWrite (libraryWrite c clock) = true := rfl
    rw [storeCalls_handleSaveReview_of_ok c store clock hv hw]
    simp [List.filter, isLibraryWrite_reviewWrite, hl]
  refine ⟨reviewData c clock, (fechaCreacionOf c clock).2,
    recordsWritten_handleSaveReview c store clock hv, rfl, hcalls, ?_⟩
  intro h
  rw [hcalls]
  unfold libraryWrite
  rw [h]
  rfl

theorem handleSaveReview_library_arguments_witness :
    (validateForm newReviewScreen.state).1 = true ∧
    storeAllOk (reviewWrite newReviewScreen (reviewData newReviewScreen tick)) = Reply.ok ∧
    ∃ d k, recordsWritten (handleSaveReview newReviewScreen storeAllOk tick) = [d] ∧
      d.fechaActualizacion = tick k ∧
      (storeCalls (handleSaveReview newReviewScreen storeAllOk tick)).filter isLibraryWrite =
        [StoreCall.updateBookInLibrary d.userId d.bookId
          { calificacionUsuario := d.calificacion, fechaCalificacion := tick (k + 1) }] ∧
      (tick (k + 1) = tick k →
        (storeCalls (handleSaveReview newReviewScreen storeAllOk tick)).filter isLibraryWrite =
          [StoreCall.updateBookInLibrary d.userId d.bookId
            { calificacionUsuario := d.calificacion,
              fechaCalificacion := d.fechaActualizacion }]) :=
  ⟨by decide, by decide,
    handleSaveReview_library_arguments newReviewScreen storeAllOk tick (by decide)
      (by decide)⟩

/-! ## The other reviews -/

theorem keepsReview_iff (c : Closure) (review : ExistingReview) :
    keepsReview c review = true ↔
      review.userId ≠ c.user.uid ∧ orFalse review.esPrivada = false := by
  simp [keepsReview]

/-- C13: when `getBookReviews` succeeds with the list `data`, `loadOtherReviews` sets
the other reviews once, to a list that is a sub-list of `data` in the same relative
order, that holds exactly the reviews of `data` whose `userId` differs from the
current user's `uid` and that are not private, each as many times as in `data`. -/
theorem loadOtherReviews_filters (c : Closure) (data : List ExistingReview) :
    ∃ l, otherReviewsSet (loadOtherReviews c (ReviewsReply.ok data)) = [l] ∧
      l.Sublist data ∧
      (∀ r, r ∈ l ↔ r ∈ data ∧ r.userId ≠ c.user.uid ∧ orFalse r.esPrivada = false) ∧
      (∀ r, r.userId ≠ c.user.uid → orFalse r.esPrivada = false →
        l.count r = data.count r) := by
  refine ⟨data.filter (keepsReview c), by simp [loadOtherReviews, otherReviewsSet],
    List.filter_sublist data, ?_, ?_⟩
  · intro r
    rw [List.mem_filter, keepsReview_iff]
  · intro r h1 h2
    rw [List.count_filter ((keepsReview_iff c r).mpr ⟨h1, h2⟩)]

theorem loadOtherReviews_filters_witness :
    otherReviewsSet (loadOtherReviews screenOfA (ReviewsReply.ok threeReviews)) =
      [[{ reviewDated with id := [51], userId := [67], esPrivada := some false }]] ∧
    ∃ l, otherReviewsSet (loadOtherReviews screenOfA (ReviewsReply.ok threeReviews)) = [l] ∧
      l.Sublist threeReviews ∧
      (∀ r, r ∈ l ↔
        r ∈ threeReviews ∧ r.userId ≠ screenOfA.user.uid ∧ orFalse r.esPrivada = false) ∧
      (∀ r, r.userId ≠ screenOfA.user.uid → orFalse r.esPrivada = false →
        l.count r = threeReviews.count r) :=
  ⟨by decide, loadOtherReviews_filters screenOfA threeReviews⟩

/-! ## Deleting a review -/

theorem handleDeleteReview_of_ok (e : ExistingReview) (store : Store)
    (h : store (StoreCall.deleteReview e.id) = Reply.ok) :
    handleDeleteReview (some e) store =
      [Effect.setSaving true, Effect.setShowDeleteDialog false,
        Effect.store (StoreCall.deleteReview e.id) Reply.ok,
        Effect.showSuccess msgDeleted, Effect.goBack, Effect.setSaving false] := by
  simp [handleDeleteReview, h]

theorem handleDeleteReview_of_failed (e : ExistingReview) (store : Store)
    (h : store (StoreCall.deleteReview e.id) ≠ Reply.ok) :
    handleDeleteReview (some e) store =
      [Effect.setSaving true, Effect.setShowDeleteDialog false,
        Effect.store (StoreCall.deleteReview e.id) (store (StoreCall.deleteReview e.id)),
        Effect.showError msgDeleteFailed, Effect.setSaving false] := by
  unfold handleDeleteReview
  cases hr : store (StoreCall.deleteReview e.id) <;> simp_all

theorem storeCalls_handleDeleteReview (e : ExistingReview) (store : Store) :
    storeCalls (handleDeleteReview (some e) store) = [StoreCall.deleteReview e.id] := by
  by_cases h : store (StoreCall.deleteReview e.id) = Reply.ok
  · rw [handleDeleteReview_of_ok e store h]
    simp [storeCalls]
  · rw [handleDeleteReview_of_failed e store h]
    simp [storeCalls]

/-- C14: deleting the existing review `e` issues exactly one store call,
`deleteReview` with the id of `e`, and no `updateBookInLibrary` call; it reports the
error toast when the store answers with a failure result or throws, and the success
toast with the navigation back otherwise. -/
theorem handleDeleteReview_one_call (e : ExistingReview) (store : Store) :
    storeCalls (handleDeleteReview (some e) store) = [StoreCall.deleteReview e.id] ∧
    (storeCalls (handleDeleteReview (some e) store)).filter isLibraryWrite = [] ∧
    (store (StoreCall.deleteReview e.id) ≠ Reply.ok →
      reported (handleDeleteReview (some e) store) = [Effect.showError msgDeleteFailed]) ∧
    (store (StoreCall.deleteReview e.id) = Reply.ok →
      reported (handleDeleteReview (some e) store) =
        [Effect.showSuccess msgDeleted, Effect.goBack]) := by
  refine ⟨storeCalls_handleDeleteReview e store, ?_, fun h => ?_, fun h => ?_⟩
  · rw [storeCalls_handleDeleteReview e store]
    simp [isLibraryWrite]
  · rw [handleDeleteReview_of_failed e store h]
    simp [reported]
  · rw [handleDeleteReview_of_ok e store h]
    simp [reported]

theorem handleDeleteReview_one_call_witness :
    storeAllOk (StoreCall.deleteReview reviewDated.id) = Reply.ok ∧
    reported (handleDeleteReview (some reviewDated) storeAllOk) =
      [Effect.showSuccess msgDeleted, Effect.goBack] ∧
    (fun _ => Reply.threw : Store) (StoreCall.deleteReview reviewDated.id) ≠ Reply.ok ∧
    reported (handleDeleteReview (some reviewDated) (fun _ => Reply.threw)) =
      [Effect.showError msgDeleteFailed] :=
  ⟨by decide,
    (handleDeleteReview_one_call reviewDated storeAllOk).2.2.2 (by decide),
    by decide,
    (handleDeleteReview_one_call reviewDated (fun _ => Reply.threw)).2.2.1 (by decide)⟩

/-! ## Nobody signed in -/

theorem saveOn_signed_in (s : Session) (u : User) (store : Store)
    (clock : Nat → JSString) (h : s.user = some u) :
    saveOn s store clock =
      Except.ok (handleSaveReview
        { book := s.book, existingReview := s.existingReview, user := u,
          userProfile := s.userProfile, state := s.state } store clock) := by
  simp [saveOn, render, h]

theorem deleteOn_signed_in (s : Session) (u : User) (store : Store)
    (h : s.user = some u) :
    deleteOn s store = Except.ok (handleDeleteReview s.existingReview store) := by
  simp [deleteOn, render, h]

/-- C15: with nobody signed in, both the save and the delete fail with an error and
issue no store call (no `createReview`, `updateReview`, `deleteReview` or
`updateBookInLibrary`). The error is the `TypeError` of the render, which reads
`user.uid` (line 336) before it creates either handler, so that neither handler runs;
the handlers hold no identity check of their own. -/
theorem signed_out_no_store_write (s : Session) (store : Store) (clock : Nat → JSString)
    (h : s.user = none) :
    saveOn s store clock = Except.error JSError.typeError ∧
    deleteOn s store = Except.error JSError.typeError ∧
    storeCalls (effectsOf (saveOn s store clock)) = [] ∧
    storeCalls (effectsOf (deleteOn s store)) = [] := by
  have hr : render s = none := by simp [render, h]
  have hs : saveOn s store clock = Except.error JSError.typeError := by
    simp [saveOn, hr]
  have hd : deleteOn s store = Except.error JSError.typeError := by
    simp [deleteOn, hr]
  refine ⟨hs, hd, ?_, ?_⟩
  · rw [hs]
    rfl
  · rw [hd]
    rfl

theorem signed_out_no_store_write_witness :
    sessionSignedOut.user = none ∧
    storeCalls (effectsOf (saveOn sessionSignedOut storeAllOk tick)) = [] ∧
    storeCalls (effectsOf (deleteOn sessionSignedOut storeAllOk)) = [] ∧
    storeCalls (effectsOf (deleteOn { sessionSignedOut with user := some userU }
      storeAllOk)) = [StoreCall.deleteReview reviewDated.id] :=
  ⟨rfl, (signed_out_no_store_write sessionSignedOut storeAllOk tick rfl).2.2.1,
    (signed_out_no_store_write sessionSignedOut storeAllOk tick rfl).2.2.2, by decide⟩

/-! ## A save that fails validation, and the ratings the form can hold -/

/-- C16: when the form fails validation, the save shows one error toast and does
nothing else: no store call, no navigation back, and the screen state (rating, text,
privacy flag, saving flag and the rest) is what it was. -/
theorem handleSaveReview_invalid_no_effect (c : Closure) (store : Store)
    (clock : Nat → JSString) (hv : (validateForm c.state).1 = false) :
    storeCalls (handleSaveReview c store clock) = [] ∧
    Effect.goBack ∉ handleSaveReview c store clock ∧
    applyEffects c.state (handleSaveReview c store clock) = c.state ∧
    ∃ m, handleSaveReview c store clock = [Effect.showError m] := by
  obtain ⟨m, hm⟩ := handleSaveReview_invalid c store clock hv
  rw [hm]
  exact ⟨by simp [storeCalls], by simp, by simp [applyEffects, applyEffect], m, rfl⟩

theorem handleSaveReview_invalid_no_effect_witness :
    (validateForm { newReviewScreen with state := formOf 4 textShort }.state).1 = false ∧
    storeCalls (handleSaveReview { newReviewScreen with state := formOf 4 textShort }
      storeAllOk tick) = [] :=
  ⟨by decide,
    (handleSaveReview_invalid_no_effect { newReviewScreen with state := formOf 4 textShort }
      storeAllOk tick (by decide)).1⟩

theorem stars_get_bounds (i : Fin 5) :
    1 ≤ stars.get ⟨i.1, i.2⟩ ∧ stars.get ⟨i.1, i.2⟩ ≤ 5 := by
  fin_cases i <;> decide

theorem step_rating_bounds (s : FormState) (a : Action)
    (h : 0 ≤ s.rating ∧ s.rating ≤ 5) : 0 ≤ (step s a).rating ∧ (step s a).rating ≤ 5 := by
  cases a with
  | pressStar i =>
    have := stars_get_bounds i
    show 0 ≤ stars.get ⟨i.1, i.2⟩ ∧ stars.get ⟨i.1, i.2⟩ ≤ 5
    omega
  | changeText text => exact h
  | togglePrivacy => exact h

theorem run_rating_bounds (actions : List Action) (s : FormState)
    (h : 0 ≤ s.rating ∧ s.rating ≤ 5) :
    0 ≤ (run s actions).rating ∧ (run s actions).rating ≤ 5 := by
  induction actions generalizing s with
  | nil => exact h
  | cons a rest ih => exact ih (step s a) (step_rating_bounds s a h)

/-- C17: on a new-review screen (no existing review, rating 0 at the start), after any
sequence of star presses, text edits and privacy toggles the rating of the form is
between 0 and 5, and every record a save then hands to `createReview` has a
`calificacion` between 1 and 5. -/
theorem newReview_rating_range (book : Book) (user : User)
    (userProfile : Option UserProfile) (actions : List Action) (store : Store)
    (clock : Nat → JSString) :
    (initialState none).rating = 0 ∧
    0 ≤ (newReviewAfter book user userProfile actions).state.rating ∧
    (newReviewAfter book user userProfile actions).state.rating ≤ 5 ∧
    ∀ d, StoreCall.createReview d ∈
        storeCalls (handleSaveReview (newReviewAfter book user userProfile actions)
          store clock) →
      1 ≤ d.calificacion ∧ d.calificacion ≤ 5 := by
  have hb : 0 ≤ (run (initialState none) actions).rating ∧
      (run (initialState none) actions).rating ≤ 5 :=
    run_rating_bounds actions (initialState none) (by decide)
  refine ⟨rfl, hb.1, hb.2, ?_⟩
  intro d hd
  by_cases hv : (validateForm (newReviewAfter book user userProfile actions).state).1 = true
  · have h0 := (validateForm_bounds_of_valid _ hv).1
    have hd2 : d = reviewData (newReviewAfter book user userProfile actions) clock := by
      by_cases hw : store (reviewWrite (newReviewAfter book user userProfile actions)
          (reviewData (newReviewAfter book user userProfile actions) clock)) = Reply.ok
      · rw [storeCalls_handleSaveReview_of_ok _ store clock hv hw] at hd
        simpa [reviewWrite, newReviewAfter, libraryWrite] using hd
      · rw [storeCalls_handleSaveReview_of_failed _ store clock hv hw] at hd
        simpa [reviewWrite, newReviewAfter] using hd
    have hr : d.calificacion = (run (initialState none) actions).rating := by
      rw [hd2]
      rfl
    have h0b : (run (initialState none) actions).rating ≠ 0 := h0
    rw [hr]
    omega
  · obtain ⟨m, hm⟩ := handleSaveReview_invalid _ store clock (by simpa using hv)
    rw [hm] at hd
    simp [storeCalls] at hd

theorem newReview_rating_range_witness :
    StoreCall.createReview
        (reviewData (newReviewAfter bookB userU none
          [Action.pressStar 2, Action.changeText textGreatBook, Action.togglePrivacy]) tick) ∈
      storeCalls (handleSaveReview (newReviewAfter bookB userU none
          [Action.pressStar 2, Action.changeText textGreatBook, Action.togglePrivacy])
        storeAllOk tick) ∧
    1 ≤ (reviewData (newReviewAfter bookB userU none
          [Action.pressStar 2, Action.changeText textGreatBook, Action.togglePrivacy])
        tick).calificacion ∧
    (reviewData (newReviewAfter bookB userU none
          [Action.pressStar 2, Action.changeText textGreatBook, Action.togglePrivacy])
        tick).calificacion ≤ 5 :=
  ⟨by decide,
    (newReview_rating_range bookB userU none
      [Action.pressStar 2, Action.changeText textGreatBook, Action.togglePrivacy]
      storeAllOk tick).2.2.2 _ (by decide)⟩

end ReviewScreen

namespace Firebase

/-- C18: without emulators `getFirebaseConfig` returns the object `FIREBASE_CONFIG`
itself; with emulators it returns a new object equal to `FIREBASE_CONFIG` in every
field but `projectId`, which is `EMULATOR_CONFIG.PROJECT_ID`; in both cases the
module's objects are after the call what they were before it. -/
theorem getFirebaseConfig_frame (x : Exports) :
    (x.USE_EMULATORS = false →
      (getFirebaseConfig x).returned = Ref.firebaseConfig ∧
      (getFirebaseConfig x).returned.deref x = x.FIREBASE_CONFIG) ∧
    (x.USE_EMULATORS = true →
      ∃ v, (getFirebaseConfig x).returned = Ref.fresh v ∧
        v.projectId = x.EMULATOR_CONFIG.PROJECT_ID ∧
        v.apiKey = x.FIREBASE_CONFIG.apiKey ∧
        v.authDomain = x.FIREBASE_CONFIG.authDomain ∧
        v.storageBucket = x.FIREBASE_CONFIG.storageBucket ∧
        v.messagingSenderId = x.FIREBASE_CONFIG.messagingSenderId ∧
        v.appId = x.FIREBASE_CONFIG.appId) ∧
    (getFirebaseConfig x).after = x ∧
    (getFirebaseConfig x).after.FIREBASE_CONFIG = x.FIREBASE_CONFIG := by
  refine ⟨fun h => ?_, fun h => ?_, ?_, ?_⟩
  · simp [getFirebaseConfig, h, Ref.deref]
  · exact ⟨{ x.FIREBASE_CONFIG with projectId := x.EMULATOR_CONFIG.PROJECT_ID },
      by simp [getFirebaseConfig, h], rfl, rfl, rfl, rfl, rfl, rfl⟩
  · unfold getFirebaseConfig
    split_ifs <;> rfl
  · unfold getFirebaseConfig
    split_ifs <;> rfl

theorem getFirebaseConfig_frame_witness :
    (exports false).USE_EMULATORS = false ∧
    (getFirebaseConfig (exports false)).returned = Ref.firebaseConfig ∧
    exportsOther.USE_EMULATORS = true ∧
    (getFirebaseConfig exportsOther).returned =
      Ref.fresh { exportsOther.FIREBASE_CONFIG with projectId := "other-project" } ∧
    ∃ v, (getFirebaseConfig exportsOther).returned = Ref.fresh v ∧
      v.projectId = exportsOther.EMULATOR_CONFIG.PROJECT_ID ∧
      v.apiKey = exportsOther.FIREBASE_CONFIG.apiKey ∧
      v.authDomain = exportsOther.FIREBASE_CONFIG.authDomain ∧
      v.storageBucket = exportsOther.FIREBASE_CONFIG.storageBucket ∧
      v.messagingSenderId = exportsOther.FIREBASE_CONFIG.messagingSenderId ∧
      v.appId = exportsOther.FIREBASE_CONFIG.appId :=
  ⟨rfl, ((getFirebaseConfig_frame (exports false)).1 rfl).1, rfl, by decide,
    (getFirebaseConfig_frame exportsOther).2.1 rfl⟩

end Firebase

namespace LoginScreen

theorem signInCalls_handleLogin (email password : JSString) (emailValid passwordValid : Bool)
    (signIn : JSString → JSString → SignInReply) :
    signInCalls (handleLogin email password emailValid passwordValid signIn) =
      if emailValid && passwordValid then [(email, password)] else [] := by
  unfold handleLogin
  cases emailValid <;> cases passwordValid <;> simp [signInCalls]
  cases signIn email password <;> simp

/-- C19: `handleLogin` always runs the email validation and then the password
validation; it calls `signIn`, once and with the entered email and password, exactly
when both validations succeed; when either fails it shows the error toast and makes no
`signIn` call. -/
theorem handleLogin_validates_then_signs_in (email password : JSString)
    (emailValid passwordValid : Bool) (signIn : JSString → JSString → SignInReply) :
    (handleLogin email password emailValid passwordValid signIn).take 3 =
      [Effect.clearError, Effect.validateEmail emailValid,
        Effect.validatePassword passwordValid] ∧
    (emailValid = true ∧ passwordValid = true →
      signInCalls (handleLogin email password emailValid passwordValid signIn) =
        [(email, password)]) ∧
    (¬ (emailValid = true ∧ passwordValid = true) →
      signInCalls (handleLogin email password emailValid passwordValid signIn) = [] ∧
      Effect.showError msgFormErrors ∈
        handleLogin email password emailValid passwordValid signIn) ∧
    ((email, password) ∈
        signInCalls (handleLogin email password emailValid passwordValid signIn) ↔
      emailValid = true ∧ passwordValid = true) := by
  have hc := signInCalls_handleLogin email password emailValid passwordValid signIn
  refine ⟨by simp [handleLogin], fun h => ?_, fun h => ⟨?_, ?_⟩, ?_⟩
  · rw [hc]
    simp [h.1, h.2]
  · rw [hc]
    cases emailValid <;> cases passwordValid <;> simp_all
  · unfold handleLogin
    cases emailValid <;> cases passwordValid <;> simp_all
  · rw [hc]
    cases emailValid <;> cases passwordValid <;> simp

theorem handleLogin_validates_then_signs_in_witness :
    signInCalls (handleLogin emailAB passwordSecret true true (fun _ _ => SignInReply.ok)) =
      [(emailAB, passwordSecret)] ∧
    signInCalls (handleLogin emailAB passwordSecret true false (fun _ _ => SignInReply.ok)) =
      [] ∧
    Effect.showError msgFormErrors ∈
      handleLogin emailAB passwordSecret true false (fun _ _ => SignInReply.ok) :=
  ⟨(handleLogin_validates_then_signs_in emailAB passwordSecret true true
      (fun _ _ => SignInReply.ok)).2.1 ⟨rfl, rfl⟩,
    ((handleLogin_validates_then_signs_in emailAB passwordSecret true false
      (fun _ _ => SignInReply.ok)).2.2.1 (by decide)).1,
    by decide⟩

end LoginScreen
